import Mathlib

/-!
Verification of the paypal-checkout SDK bootstrap (`src/setup.js`) against its
natural-language specification.  The JavaScript module is shallowly embedded:
the process-wide mutable `config` record becomes an explicit `Config` value,
side effects become explicit effect lists, thrown exceptions become `Except`,
and JavaScript truthiness on optional string/boolean fields is modelled
explicitly.
-/

/-- JavaScript truthiness for an optional string value: `null`/`undefined`
(`none`) and the empty string are falsy; every other string is truthy. -/
def truthy : Option String → Bool
  | none => false
  | some s => !s.isEmpty

/-- JavaScript truthiness for an optional boolean value. -/
def truthyB : Option Bool → Bool
  | some b => b
  | none => false

/-- The process-wide mutable configuration record (`config` from `./config`;
the module is not under `src/`, so only the fields `setup.js` reads or writes
are modelled, with unconstrained contents). -/
structure Config where
  env : String
  stage : String
  apiStage : String
  uiState : String
  ppobjects : Bool
  logLevel : String
  paypalUrls : List (String × String)
  postBridgeUrls : List (String × String)
  paypalDomains : List (String × String)
  scriptUrl : String
  version : String
deriving Repr, DecidableEq

/-- The `ConfigOptions` record accepted by `configure`/`setup`: every field is
optional (`none` models both `null` and `undefined`). -/
structure ConfigOptions where
  env : Option String := none
  stage : Option String := none
  apiStage : Option String := none
  uiState : Option String := none
  ppobjects : Option Bool := none
  logLevel : Option String := none
deriving Repr, DecidableEq

/-- `domainToEnv`: scan `config.paypalUrls` in key order and return the first
environment name whose domain equals the given domain. -/
def domainToEnv (c : Config) (domain : String) : Option String :=
  (c.paypalUrls.find? (fun p => p.2 == domain)).map Prod.fst

/-- `setDomainEnv`: if the domain resolves to a truthy environment name other
than `"test"`, set it as the active environment; otherwise leave the
configuration untouched.  The function is total — no error path exists. -/
def setDomainEnv (c : Config) (domain : String) : Config :=
  match domainToEnv c domain with
  | some e => if !e.isEmpty && e != "test" then { c with env := e } else c
  | none => c

/-- `configure`: validates an explicit environment override against
`config.paypalUrls` (throwing `Invalid env` before any mutation), then
overwrites each configuration field whose option is truthy, and finally calls
`setLogLevel` with the supplied level or the configured default.  A thrown
error carries the configuration as it stood at the throw; a normal return
carries the updated configuration and the log level that was applied. -/
def configure (c : Config) (o : ConfigOptions) : Except (String × Config) (Config × String) :=
  if truthy o.env then
    let e := o.env.getD ""
    if !truthy (c.paypalUrls.lookup e) then
      .error ("Invalid env: " ++ e, c)
    else
      let c := { c with env := e }
      let c := if truthy o.stage then { c with stage := o.stage.getD "" } else c
      let c := if truthy o.apiStage then { c with apiStage := o.apiStage.getD "" } else c
      let c := if truthy o.uiState then { c with uiState := o.uiState.getD "" } else c
      let c := if truthyB o.ppobjects then { c with ppobjects := true } else c
      let level := if truthy o.logLevel then o.logLevel.getD "" else c.logLevel
      .ok (c, level)
  else
    let c := if truthy o.stage then { c with stage := o.stage.getD "" } else c
    let c := if truthy o.apiStage then { c with apiStage := o.apiStage.getD "" } else c
    let c := if truthy o.uiState then { c with uiState := o.uiState.getD "" } else c
    let c := if truthyB o.ppobjects then { c with ppobjects := true } else c
    let level := if truthy o.logLevel then o.logLevel.getD "" else c.logLevel
    .ok (c, level)

/-- A `<script>` element: its `src` URL (the empty string models an absent or
empty `src`, both falsy in JavaScript), the `data-paypal-checkout` marker
attribute, and the configuration attributes `setup.js` reads off the tag
(`getAttribute` yields `null` — `none` — when an attribute is absent). -/
structure Script where
  src : String
  hasDataPaypalCheckout : Bool
  dataEnv : Option String := none
  dataStage : Option String := none
  dataApiStage : Option String := none
  dataLogLevel : Option String := none
  dataUiState : Option String := none
deriving Repr, DecidableEq

/-- The document as `setup.js` sees it: the script elements in document order
(`document.getElementsByTagName('script')`) and the browser-tracked
`document.currentScript` (absent in older browsers). -/
structure Document where
  scripts : List Script
  currentScript : Option Script
deriving Repr, DecidableEq

/-- `src.replace(/^https?:/, '').split('?')[0]`: drop a leading `http:` or
`https:` scheme, then keep everything before the first `?`. -/
def stripSrc (s : String) : String :=
  let cs := s.toList
  let cs := if "https:".toList.isPrefixOf cs then cs.drop 6
            else if "http:".toList.isPrefixOf cs then cs.drop 5
            else cs
  String.mk (cs.takeWhile (· != '?'))

/-- `s.indexOf(sub) !== -1`: `sub` occurs as a contiguous substring of `s`. -/
def containsSubstr (s sub : String) : Bool :=
  s.toList.tails.any (fun t => sub.toList.isPrefixOf t)

/-- First condition of the locator loop:
`script.src && stripped === config.scriptUrl || script.hasAttribute('data-paypal-checkout')`
(`&&` binds tighter than `||` in JavaScript). -/
def scriptCond1 (c : Config) (s : Script) : Bool :=
  (!s.src.isEmpty && stripSrc s.src == c.scriptUrl) || s.hasDataPaypalCheckout

/-- Second condition of the locator loop:
`script.src && script.src.indexOf('paypal.checkout.v4.js') !== -1`. -/
def scriptCond2 (s : Script) : Bool :=
  !s.src.isEmpty && containsSubstr s.src "paypal.checkout.v4.js"

/-- The locator's scan loop: return the first script passing either
condition, in document order. -/
def scanScripts (c : Config) : List Script → Option Script
  | [] => none
  | s :: rest =>
    if scriptCond1 c s then some s
    else if scriptCond2 s then some s
    else scanScripts c rest

/-- The three locator heuristics exactly as the specification words them
(stripped URL equals the configured SDK URL; marker attribute present; URL
contains the legacy filename substring), as a single predicate.  This is the
spec-side definition used to state the refinement of `scanScripts`; a script
with no `src` has no source URL, so the two URL heuristics do not apply. -/
def specHeuristic (c : Config) (s : Script) : Bool :=
  (!s.src.isEmpty && stripSrc s.src == c.scriptUrl)
  || s.hasDataPaypalCheckout
  || (!s.src.isEmpty && containsSubstr s.src "paypal.checkout.v4.js")

/-- The side effects `setup.js` performs, as an explicit trace alphabet:
logger calls (`warn`/`info`/`debug`, the structured `error` log, `track`
events, `flush`), `setLogLevel`, and the external collaborators invoked by
`init` (`checkForCommonErrors`, `createPptmScript`, `initLogger`,
`bridge.openBridge`). -/
inductive Eff where
  | warn (name : String)
  | info (name : String)
  | debug (name : String)
  | errorLog (name stack errtype : String)
  | trackError (code desc : String)
  | trackScriptLoad (transitionTime : Option Nat)
  | flushAttempt
  | setLogLevelEff (level : String)
  | checkCommonErrors
  | injectPptm
  | initLoggerEff
  | openBridge (url domain : Option String)
deriving Repr, DecidableEq

/-- `getCurrentScript`: run the scan loop; when nothing matched and the
document tracks a currently-executing script, emit the
`current_script_not_recognized` diagnostic. -/
def getCurrentScript (c : Config) (doc : Document) : Option Script × List Eff :=
  match scanScripts c doc.scripts with
  | some s => (some s, [])
  | none =>
    (none,
     if doc.currentScript.isSome then [.debug "current_script_not_recognized"] else [])

/-- External page facts read by `init` and the load-time branch:
`isEligible()`, `isPayPalDomain()`, `getDomainSetting('force_bridge')`, the
availability of the post-robot `bridge`, `window.location.protocol`, and
`getResourceLoadTime(src)` (`none` models an absent timing entry; `some 0` is
falsy in JavaScript like an absent one). -/
structure PageEnv where
  eligible : Bool
  isPayPalDomain : Bool
  forceBridge : Bool
  bridgeAvailable : Bool
  locationProtocol : String
  loadTime : Option Nat
deriving Repr, DecidableEq

/-- The mutable module state: the process-wide configuration plus the
run-once guard of `init`. -/
structure SdkState where
  config : Config
  hasRun : Bool
deriving Repr, DecidableEq

/-- Modelled from the spec: the `once` combinator is imported from `./lib`,
which is not under `src/`.  Per the specification it is a run-once guard whose
flag is set synchronously before the protected body starts, so that any later
call — including one made while the body is still mid-flight in the
single-threaded host — observes "already run" and performs nothing. -/
def once (f : SdkState → SdkState × List Eff) (s : SdkState) : SdkState × List Eff :=
  if s.hasRun then (s, []) else f { s with hasRun := true }

/-- `window.location.protocol.split(':')[0]` (and likewise
`currentScript.src.split(':')[0]`). -/
def protocolOf (s : String) : String :=
  String.mk (s.toList.takeWhile (· != ':'))

/-- The body of `init`: eligibility warning, common-error check, pptm script
injection off PayPal domains, logger initialization, optional forced bridge,
then the `setup_<env>` info log and the `current_protocol_<p>` debug log. -/
def initBody (pe : PageEnv) (s : SdkState) : SdkState × List Eff :=
  (s,
    (if !pe.eligible then [Eff.warn "ineligible"] else [])
    ++ [Eff.checkCommonErrors]
    ++ (if !pe.isPayPalDomain then [Eff.injectPptm] else [])
    ++ [Eff.initLoggerEff]
    ++ (if pe.forceBridge && pe.bridgeAvailable && !pe.isPayPalDomain then
          [Eff.openBridge (s.config.postBridgeUrls.lookup s.config.env)
            (s.config.paypalDomains.lookup s.config.env)]
        else [])
    ++ [Eff.info ("setup_" ++ s.config.env),
        Eff.debug ("current_protocol_" ++ protocolOf pe.locationProtocol)])

/-- `init = once(() => { ... })`. -/
def init (pe : PageEnv) : SdkState → SdkState × List Eff :=
  once (initBody pe)

/-- `n` sequential calls of `init`, with the emitted effects concatenated in
call order. -/
def initSeq (pe : PageEnv) : Nat → SdkState → SdkState × List Eff
  | 0, s => (s, [])
  | n + 1, s =>
    let r1 := init pe s
    let r2 := initSeq pe n r1.1
    (r2.1, r1.2 ++ r2.2)

/-- `setup(options)`: `configure(options)` then `init()`.  The `setLogLevel`
call made by `configure` is recorded as the first effect of a successful run;
a configuration error propagates to the caller before `init` runs. -/
def setup (pe : PageEnv) (o : ConfigOptions) (s : SdkState) :
    Except (String × SdkState) (SdkState × List Eff) :=
  match configure s.config o with
  | .error (msg, c) => .error (msg, { s with config := c })
  | .ok (c, level) =>
    let r := init pe { s with config := c }
    .ok (r.1, [Eff.setLogLevelEff level] ++ r.2)

/-- `config.version.replace(/[^0-9a-zA-Z]+/g, '_')`: each maximal run of
non-alphanumeric characters becomes a single underscore. -/
def sanitizeChars : List Char → List Char
  | [] => []
  | c :: rest =>
    if c.isAlphanum then c :: sanitizeChars rest
    else '_' :: sanitizeChars (rest.dropWhile (fun d => !d.isAlphanum))
termination_by l => l.length
decreasing_by
  · simp only [List.length_cons]; omega
  · exact Nat.lt_succ_of_le (List.dropWhile_sublist _).length_le

/-- String wrapper for `sanitizeChars`. -/
def sanitizeVersion (s : String) : String :=
  String.mk (sanitizeChars s.toList)

/-- The telemetry emitted by the load-time `if (currentScript)` branch after
its `setup(...)` call: script-protocol debugs, version debug, load-time debugs
off PayPal domains, and the script-load track event. -/
def scriptBranchLogs (c : Config) (pe : PageEnv) (scr : Script) : List Eff :=
  let scriptProtocol := protocolOf scr.src
  let currentProtocol := protocolOf pe.locationProtocol
  [Eff.debug ("current_script_protocol_" ++ scriptProtocol),
   Eff.debug ("current_script_protocol_"
     ++ (if currentProtocol == scriptProtocol then "match" else "mismatch")),
   Eff.debug ("current_script_version_" ++ sanitizeVersion c.version)]
  ++ (match pe.loadTime with
      | some t =>
        if t != 0 && !pe.isPayPalDomain then
          [Eff.debug "current_script_time",
           Eff.debug ("current_script_time_" ++ toString (t / 1000))]
        else []
      | none => [])
  ++ [Eff.trackScriptLoad pe.loadTime]

/-- The module's load-time tail, from the `getCurrentScript()` call onward:
either the `if (currentScript)` branch — `setup` with the tag's data
attributes and `ppobjects: true`, then the script telemetry — or the `else`
branch — the script-load track event, the `no_current_script` debugs, the
`current_script_not_recognized` diagnostic when `document.currentScript` is
truthy, then `setup()` with no options. -/
def loadTimeRun (pe : PageEnv) (doc : Document) (s : SdkState) :
    Except (String × SdkState) (SdkState × List Eff) :=
  let scan := getCurrentScript s.config doc
  match scan.1 with
  | some scr =>
    match setup pe
        { env := scr.dataEnv, stage := scr.dataStage, apiStage := scr.dataApiStage,
          uiState := scr.dataUiState, logLevel := scr.dataLogLevel,
          ppobjects := some true } s with
    | .error e => .error e
    | .ok (s1, effs) => .ok (s1, scan.2 ++ effs ++ scriptBranchLogs s1.config pe scr)
  | none =>
    let pre := [Eff.trackScriptLoad none,
                Eff.debug "no_current_script",
                Eff.debug ("no_current_script_version_" ++ sanitizeVersion s.config.version)]
               ++ (if doc.currentScript.isSome then
                     [Eff.debug "current_script_not_recognized"] else [])
    match setup pe {} s with
    | .error e => .error e
    | .ok (s1, effs) => .ok (s1, scan.2 ++ pre ++ effs)

/-- A JavaScript error value as the handler observes it: an optional `stack`
string (possibly present but empty, which is falsy), the string produced by
`toString()`, and the `({}).toString.call(err)` type tag. -/
structure JsErr where
  stack : Option String
  str : String
  jsType : String
deriving Repr, DecidableEq

/-- `e.stack || e.toString()`: the stack when truthy, else the stringified
form.  Modelled from the spec: `stringifyError` lives in `./lib`, which is
not under `src/`; the specification describes it as "stack or stringified
form". -/
def stringifyError (e : JsErr) : String :=
  match e.stack with
  | some s => if s.isEmpty then e.str else s
  | none => e.str

/-- Modelled from the spec: `stringifyErrorMessage` from `./lib` (not under
`src/`) serializes the error's message for the tracking event. -/
def stringifyErrorMessage (e : JsErr) : String := e.str

/-- The synchronous work of the `onPossiblyUnhandledException` handler: one
structured error log (name, stringified stack, type tag), one tracking event
(error code and description), then the `flush()` call. -/
def unhandledHandler (e : JsErr) : List Eff :=
  [Eff.errorLog "unhandled_error" (stringifyError e) e.jsType,
   Eff.trackError "checkoutjs_error" (stringifyErrorMessage e),
   Eff.flushAttempt]

/-- The `window.console` object as the flush-failure fallback observes it:
whether `window.console`, `console.error` and `console.log` are present, and
the error each method throws when called (`none` = the call succeeds). -/
structure Console where
  present : Bool
  hasError : Bool
  hasLog : Bool
  errorThrows : Option JsErr
  logThrows : Option JsErr
deriving Repr, DecidableEq

/-- Outcome of the flush `.catch` handler: the console lines actually
written, and the error re-thrown asynchronously via `setTimeout` (if any). -/
structure FlushCatchResult where
  consoleWrites : List String
  deferredThrow : Option JsErr
deriving Repr, DecidableEq

/-- The `.catch(err2 => ...)` attached to `$logger.flush()`: try a console
write of the flush error; if the write itself throws `err3`, defer a re-throw
of `err3` to the next scheduling turn; with no console, do nothing. -/
def flushCatch (con : Console) (err2 : JsErr) : FlushCatchResult :=
  if con.present then
    if con.hasError then
      match con.errorThrows with
      | some err3 => { consoleWrites := [], deferredThrow := some err3 }
      | none =>
        { consoleWrites := ["Error flushing: " ++ stringifyError err2],
          deferredThrow := none }
    else if con.hasLog then
      match con.logThrows with
      | some err3 => { consoleWrites := [], deferredThrow := some err3 }
      | none =>
        { consoleWrites := ["Error flushing: " ++ stringifyError err2],
          deferredThrow := none }
    else { consoleWrites := [], deferredThrow := none }
  else { consoleWrites := [], deferredThrow := none }

/-- Does a load-time run emit the `current_script_not_recognized` debug? -/
def isNotRecognizedEff : Eff → Bool
  | Eff.debug n => n == "current_script_not_recognized"
  | _ => false

/-- Number of `current_script_not_recognized` diagnostics emitted by a
load-time run (an aborted run emits none after the abort). -/
def notRecognizedCount (r : Except (String × SdkState) (SdkState × List Eff)) : Nat :=
  match r with
  | .ok p => p.2.countP isNotRecognizedEff
  | .error _ => 0

/-- Is an effect the structured `$logger.error` call? -/
def isErrorLogEff : Eff → Bool
  | Eff.errorLog _ _ _ => true
  | _ => false

/-- Is an effect the error-tracking `$logger.track` call? -/
def isTrackErrorEff : Eff → Bool
  | Eff.trackError _ _ => true
  | _ => false

/-- Is an effect the `$logger.flush` attempt? -/
def isFlushEff : Eff → Bool
  | Eff.flushAttempt => true
  | _ => false

/-- A concrete configuration fixture (the real `config.js` is not under
`src/`; these values only exercise the definitions). -/
def cfg0 : Config :=
  { env := "production", stage := "", apiStage := "", uiState := "",
    ppobjects := false, logLevel := "warn",
    paypalUrls := [("local", "https://localhost.paypal.com:8000"),
                   ("sandbox", "https://www.sandbox.paypal.com"),
                   ("production", "https://www.paypal.com"),
                   ("test", "https://test.paypal.com")],
    postBridgeUrls := [("production", "https://www.paypal.com/us/bridge")],
    paypalDomains := [("production", "https://www.paypal.com")],
    scriptUrl := "//www.paypalobjects.com/api/checkout.js",
    version := "4.0.8" }

/-- A fresh module state over `cfg0`, before any `init` call. -/
def state0 : SdkState := { config := cfg0, hasRun := false }

/-- A concrete page-environment fixture. -/
def pe0 : PageEnv :=
  { eligible := true, isPayPalDomain := false, forceBridge := false,
    bridgeAvailable := true, locationProtocol := "https:", loadTime := some 1234 }

/-- A script recognized by none of the three locator heuristics. -/
def alienScript : Script :=
  { src := "https://example.com/other.js", hasDataPaypalCheckout := false }

/-- A document whose only script matches no heuristic, while the browser does
track a currently-executing script. -/
def docNoMatch : Document :=
  { scripts := [alienScript], currentScript := some alienScript }

/-- A flush-failure error and a distinct console-write error. -/
def err2fix : JsErr := { stack := none, str := "flush failed", jsType := "[object Error]" }

/-- The error thrown by the console fallback write in the fixtures. -/
def err3fix : JsErr := { stack := none, str := "console write failed", jsType := "[object Error]" }

/-- A console whose `error` method is present but throws `err3fix`. -/
def conThrow : Console :=
  { present := true, hasError := true, hasLog := true,
    errorThrows := some err3fix, logThrows := none }

theorem isEmpty_false_of_ne {e : String} (h : e ≠ "") : e.isEmpty = false := by
  cases he : e.isEmpty
  · rfl
  · exact absurd ((String.isEmpty_iff e).1 he) h

theorem truthy_some_of_ne {e : String} (h : e ≠ "") : truthy (some e) = true := by
  simp [truthy, isEmpty_false_of_ne h]

theorem init_hasRun (pe : PageEnv) (s : SdkState) : (init pe s).1.hasRun = true := by
  unfold init once initBody
  by_cases h : s.hasRun <;> simp [h]

theorem init_noop_of_hasRun (pe : PageEnv) (s : SdkState) (h : s.hasRun = true) :
    init pe s = (s, []) := by
  simp [init, once, h]

theorem initSeq_noop_of_hasRun (pe : PageEnv) (m : Nat) (s : SdkState)
    (h : s.hasRun = true) : initSeq pe m s = (s, []) := by
  induction m with
  | zero => rfl
  | succ k ih => simp [initSeq, init_noop_of_hasRun pe s h, ih]

/-- C1: calling `init` N > 1 times in sequence yields the same final state
and the same effect trace as a single call — the guard is set on the first
call, so every later call is a no-op contributing no effects. -/
theorem init_runs_side_effects_once (pe : PageEnv) (s : SdkState) (n : Nat)
    (h : 1 ≤ n) : initSeq pe n s = init pe s := by
  obtain ⟨m, rfl⟩ : ∃ m, n = m + 1 := ⟨n - 1, by omega⟩
  simp [initSeq, initSeq_noop_of_hasRun pe m (init pe s).1 (init_hasRun pe s)]

/-- Witness for C1 at `n = 3` on a fresh state. -/
theorem init_runs_side_effects_once_witness :
    1 ≤ 3 ∧ initSeq pe0 3 state0 = init pe0 state0 :=
  ⟨by decide, init_runs_side_effects_once pe0 state0 3 (by decide)⟩

/-- C2: an explicit environment override that is not a key of
`config.paypalUrls` makes `configure` throw `Invalid env`, and the active
environment carried by the thrown state equals the prior one. -/
theorem configure_unknown_env_errors (c : Config) (o : ConfigOptions) (e : String)
    (henv : o.env = some e) (hne : e ≠ "")
    (hlook : c.paypalUrls.lookup e = none) :
    ∃ msg c2, configure c o = .error (msg, c2) ∧ c2.env = c.env := by
  refine ⟨"Invalid env: " ++ e, c, ?_, rfl⟩
  simp [configure, henv, truthy, isEmpty_false_of_ne hne, hlook]

/-- Witness for C2: the override `"bogus"` is unknown to `cfg0`. -/
theorem configure_unknown_env_errors_witness :
    ∃ msg c2, configure cfg0 { env := some "bogus" } = .error (msg, c2)
      ∧ c2.env = cfg0.env :=
  configure_unknown_env_errors cfg0 { env := some "bogus" } "bogus" rfl
    (by decide) (by decide)

theorem find?_domain_of_pairwise {l : List (String × String)} {e d : String}
    (hdist : l.Pairwise (fun a b => a.2 ≠ b.2)) (hmem : (e, d) ∈ l) :
    l.find? (fun p => p.2 == d) = some (e, d) := by
  induction l with
  | nil => cases hmem
  | cons a l ih =>
    rw [List.pairwise_cons] at hdist
    rcases List.mem_cons.1 hmem with rfl | h
    · simp
    · have hne : a.2 ≠ d := hdist.1 (e, d) h
      rw [List.find?_cons_of_neg _ (by simpa using hne)]
      exact ih hdist.2 h

/-- C3: with the environment table having pairwise-distinct domains and
truthy environment names, `setDomainEnv` (i) sets the active environment to
the name of the non-test environment owning the given origin, (ii) changes
nothing when no environment owns the origin, and (iii) changes nothing when
the origin belongs to the `"test"` sentinel.  The function is total, so no
error can be raised on a miss. -/
theorem setDomainEnv_resolution (c : Config) (d : String)
    (hdist : c.paypalUrls.Pairwise (fun a b => a.2 ≠ b.2))
    (hkeys : ∀ p ∈ c.paypalUrls, p.1 ≠ "") :
    (∀ e, (e, d) ∈ c.paypalUrls → e ≠ "test" → setDomainEnv c d = { c with env := e })
    ∧ ((∀ p ∈ c.paypalUrls, p.2 ≠ d) → setDomainEnv c d = c)
    ∧ (("test", d) ∈ c.paypalUrls → setDomainEnv c d = c) := by
  refine ⟨?_, ?_, ?_⟩
  · intro e hmem hne
    have hf := find?_domain_of_pairwise hdist hmem
    have hee : e ≠ "" := hkeys (e, d) hmem
    simp [setDomainEnv, domainToEnv, hf, isEmpty_false_of_ne hee, hne]
  · intro hnone
    have hf : c.paypalUrls.find? (fun p => p.2 == d) = none := by
      rw [List.find?_eq_none]
      intro p hp
      simpa using hnone p hp
    simp [setDomainEnv, domainToEnv, hf]
  · intro hmem
    have hf := find?_domain_of_pairwise hdist hmem
    simp [setDomainEnv, domainToEnv, hf]

/-- Witness for C3 on `cfg0`: `https://www.paypal.com` resolves to
`production`; an unknown origin and the test domain leave `cfg0` unchanged. -/
theorem setDomainEnv_resolution_witness :
    cfg0.paypalUrls.Pairwise (fun a b => a.2 ≠ b.2) ∧
    ((∀ e, (e, "https://www.paypal.com") ∈ cfg0.paypalUrls → e ≠ "test" →
        setDomainEnv cfg0 "https://www.paypal.com" = { cfg0 with env := e })
     ∧ ((∀ p ∈ cfg0.paypalUrls, p.2 ≠ "https://www.paypal.com") →
        setDomainEnv cfg0 "https://www.paypal.com" = cfg0)
     ∧ (("test", "https://www.paypal.com") ∈ cfg0.paypalUrls →
        setDomainEnv cfg0 "https://www.paypal.com" = cfg0)) :=
  ⟨by decide, setDomainEnv_resolution cfg0 "https://www.paypal.com" (by decide) (by decide)⟩

theorem specHeuristic_eq_conds (c : Config) (s : Script) :
    specHeuristic c s = (scriptCond1 c s || scriptCond2 s) := by
  simp [specHeuristic, scriptCond1, scriptCond2, Bool.or_assoc]

theorem scanScripts_eq_find? (c : Config) (l : List Script) :
    scanScripts c l = l.find? (specHeuristic c) := by
  induction l with
  | nil => rfl
  | cons s rest ih =>
    cases h1 : scriptCond1 c s with
    | true =>
      rw [scanScripts, List.find?_cons_of_pos _ (by simp [specHeuristic_eq_conds, h1])]
      simp [h1]
    | false =>
      cases h2 : scriptCond2 s with
      | true =>
        rw [scanScripts, List.find?_cons_of_pos _ (by simp [specHeuristic_eq_conds, h1, h2])]
        simp [h1, h2]
      | false =>
        rw [scanScripts, List.find?_cons_of_neg _ (by simp [specHeuristic_eq_conds, h1, h2])]
        simp [h1, h2, ih]

theorem getCurrentScript_fst (c : Config) (doc : Document) :
    (getCurrentScript c doc).1 = scanScripts c doc.scripts := by
  unfold getCurrentScript
  cases scanScripts c doc.scripts <;> simp

/-- C4: the locator returns exactly the first script element, in document
order, satisfying at least one of the three heuristics — `List.find?` over
the spec-worded predicate — and hence no value when no element satisfies
any heuristic. -/
theorem getCurrentScript_first_heuristic_match (c : Config) (doc : Document) :
    (getCurrentScript c doc).1 = doc.scripts.find? (specHeuristic c) := by
  rw [getCurrentScript_fst, scanScripts_eq_find?]

/-- C6: the possibly-unhandled-exception handler emits, for every error,
exactly one structured error log, exactly one tracking event, and exactly
one flush attempt, in that order. -/
theorem unhandledHandler_exactly_once (e : JsErr) :
    (unhandledHandler e).countP isErrorLogEff = 1
    ∧ (unhandledHandler e).countP isTrackErrorEff = 1
    ∧ (unhandledHandler e).countP isFlushEff = 1 := by
  refine ⟨?_, ?_, ?_⟩ <;> rfl

/-- C7 counterexample: the console write of the flush error throws a distinct
error `err3fix`; the code defers a re-throw of `err3fix`, not of the original
flush error `err2fix` — so the claim that the original flush error is
re-raised fails at this input. -/
theorem flushCatch_not_original_error :
    conThrow.present = true ∧ conThrow.hasError = true
    ∧ conThrow.errorThrows = some err3fix
    ∧ (flushCatch conThrow err2fix).deferredThrow ≠ some err2fix := by
  decide

/-- C7 amended: when the console fallback write itself throws, the error
re-raised asynchronously on a later scheduling turn is the one thrown by the
console write — it is not swallowed, but it is that error, not the original
flush error. -/
theorem flushCatch_rethrows_console_error (con : Console) (err2 err3 : JsErr)
    (hp : con.present = true)
    (h : (con.hasError = true ∧ con.errorThrows = some err3)
       ∨ (con.hasError = false ∧ con.hasLog = true ∧ con.logThrows = some err3)) :
    (flushCatch con err2).deferredThrow = some err3 := by
  rcases h with ⟨h1, h2⟩ | ⟨h1, h2, h3⟩ <;> simp [flushCatch, hp, h1, h2, *]

/-- Witness for the amended C7 at the throwing-console fixture. -/
theorem flushCatch_rethrows_console_error_witness :
    conThrow.present = true
    ∧ (flushCatch conThrow err2fix).deferredThrow = some err3fix :=
  ⟨by decide,
   flushCatch_rethrows_console_error conThrow err2fix err3fix (by decide)
     (Or.inl ⟨by decide, by decide⟩)⟩

/-- Options record exercising every field of `configure` at once. -/
def optsAll : ConfigOptions :=
  { env := some "sandbox", stage := some "stage1", apiStage := some "api1",
    uiState := some "ui1", ppobjects := some true, logLevel := some "debug" }

/-- C8: when the (truthy) environment override is valid, `configure`
overwrites exactly the truthy fields with the supplied values and always
applies a log level — the supplied one when truthy, the configured default
otherwise. -/
theorem configure_overwrites_present_fields (c : Config) (o : ConfigOptions)
    (henv : truthy o.env = true → truthy (c.paypalUrls.lookup (o.env.getD "")) = true) :
    configure c o = .ok
      ({ c with
          env := if truthy o.env then o.env.getD "" else c.env,
          stage := if truthy o.stage then o.stage.getD "" else c.stage,
          apiStage := if truthy o.apiStage then o.apiStage.getD "" else c.apiStage,
          uiState := if truthy o.uiState then o.uiState.getD "" else c.uiState,
          ppobjects := if truthyB o.ppobjects then true else c.ppobjects },
        if truthy o.logLevel then o.logLevel.getD "" else c.logLevel) := by
  by_cases he : truthy o.env = true
  · have hl := henv he
    by_cases hs : truthy o.stage = true <;>
      by_cases ha : truthy o.apiStage = true <;>
        by_cases hu : truthy o.uiState = true <;>
          by_cases hp : truthyB o.ppobjects = true <;>
            by_cases hg : truthy o.logLevel = true <;>
              simp [configure, he, hl, hs, ha, hu, hp, hg]
  · by_cases hs : truthy o.stage = true <;>
      by_cases ha : truthy o.apiStage = true <;>
        by_cases hu : truthy o.uiState = true <;>
          by_cases hp : truthyB o.ppobjects = true <;>
            by_cases hg : truthy o.logLevel = true <;>
              simp [configure, he, hs, ha, hu, hp, hg]

/-- Witness for C8 at `optsAll` over `cfg0`. -/
theorem configure_overwrites_present_fields_witness :
    configure cfg0 optsAll = .ok
      ({ cfg0 with
          env := if truthy optsAll.env then optsAll.env.getD "" else cfg0.env,
          stage := if truthy optsAll.stage then optsAll.stage.getD "" else cfg0.stage,
          apiStage := if truthy optsAll.apiStage then optsAll.apiStage.getD "" else cfg0.apiStage,
          uiState := if truthy optsAll.uiState then optsAll.uiState.getD "" else cfg0.uiState,
          ppobjects := if truthyB optsAll.ppobjects then true else cfg0.ppobjects },
        if truthy optsAll.logLevel then optsAll.logLevel.getD "" else cfg0.logLevel) :=
  configure_overwrites_present_fields cfg0 optsAll (by decide)

/-- Options with an unknown environment override plus other truthy fields,
exercising that the throw precedes every mutation. -/
def optsBadEnv : ConfigOptions :=
  { env := some "nope", stage := some "newstage", apiStage := some "newapi",
    uiState := some "newui", ppobjects := some true, logLevel := some "debug" }

/-- C9: when `configure` throws the invalid-environment error, the entire
configuration record at the throw is the input record — stage, API stage,
UI state, feature flag and environment all keep their prior values — and no
log level is applied, because the environment check precedes every mutation
(an applied level exists only on the success path of `configure`). -/
theorem configure_error_leaves_all_unchanged (c : Config) (o : ConfigOptions)
    (e : String) (henv : o.env = some e) (hne : e ≠ "")
    (hlook : truthy (c.paypalUrls.lookup e) = false) :
    configure c o = .error ("Invalid env: " ++ e, c) := by
  simp [configure, henv, truthy_some_of_ne hne, hlook]

/-- Witness for C9 at `optsBadEnv` over `cfg0`. -/
theorem configure_error_leaves_all_unchanged_witness :
    optsBadEnv.env = some "nope" ∧ "nope" ≠ ""
    ∧ truthy (cfg0.paypalUrls.lookup "nope") = false
    ∧ configure cfg0 optsBadEnv = .error ("Invalid env: " ++ "nope", cfg0) :=
  ⟨rfl, by decide, by decide,
   configure_error_leaves_all_unchanged cfg0 optsBadEnv "nope" rfl (by decide) (by decide)⟩

/-- C10: a falsy environment override (absent, `null`/`undefined`, or the
empty string) never triggers the invalid-environment error even though it is
no key of the mapping: `configure` succeeds, leaves the environment
unchanged, and skips every other falsy field the same way (the log level
falling back to the configured default); `setup` likewise never throws for
such options. -/
theorem configure_falsy_env_silently_ignored (c : Config) (o : ConfigOptions)
    (h : truthy o.env = false) :
    configure c o = .ok
      ({ c with
          stage := if truthy o.stage then o.stage.getD "" else c.stage,
          apiStage := if truthy o.apiStage then o.apiStage.getD "" else c.apiStage,
          uiState := if truthy o.uiState then o.uiState.getD "" else c.uiState,
          ppobjects := if truthyB o.ppobjects then true else c.ppobjects },
        if truthy o.logLevel then o.logLevel.getD "" else c.logLevel)
    ∧ ∀ pe s, ∃ r, setup pe o s = .ok r := by
  have hconf : ∀ c' : Config, configure c' o = .ok
      ({ c' with
          stage := if truthy o.stage then o.stage.getD "" else c'.stage,
          apiStage := if truthy o.apiStage then o.apiStage.getD "" else c'.apiStage,
          uiState := if truthy o.uiState then o.uiState.getD "" else c'.uiState,
          ppobjects := if truthyB o.ppobjects then true else c'.ppobjects },
        if truthy o.logLevel then o.logLevel.getD "" else c'.logLevel) := by
    intro c'
    by_cases hs : truthy o.stage = true <;>
      by_cases ha : truthy o.apiStage = true <;>
        by_cases hu : truthy o.uiState = true <;>
          by_cases hp : truthyB o.ppobjects = true <;>
            by_cases hg : truthy o.logLevel = true <;>
              simp [configure, h, hs, ha, hu, hp, hg]
  refine ⟨hconf c, ?_⟩
  intro pe s
  simp only [setup, hconf s.config]
  exact ⟨_, rfl⟩

/-- Witness for C10: an explicitly empty-string override together with a
truthy stage, on `cfg0`. -/
theorem configure_falsy_env_silently_ignored_witness :
    truthy ({ env := some "", stage := some "x" } : ConfigOptions).env = false
    ∧ (configure cfg0 { env := some "", stage := some "x" } = .ok
        ({ cfg0 with
            stage := if truthy ({ env := some "", stage := some "x" } : ConfigOptions).stage
                     then ({ env := some "", stage := some "x" } : ConfigOptions).stage.getD ""
                     else cfg0.stage,
            apiStage := if truthy ({ env := some "", stage := some "x" } : ConfigOptions).apiStage
                        then ({ env := some "", stage := some "x" } : ConfigOptions).apiStage.getD ""
                        else cfg0.apiStage,
            uiState := if truthy ({ env := some "", stage := some "x" } : ConfigOptions).uiState
                       then ({ env := some "", stage := some "x" } : ConfigOptions).uiState.getD ""
                       else cfg0.uiState,
            ppobjects := if truthyB ({ env := some "", stage := some "x" } : ConfigOptions).ppobjects
                         then true else cfg0.ppobjects },
          if truthy ({ env := some "", stage := some "x" } : ConfigOptions).logLevel
          then ({ env := some "", stage := some "x" } : ConfigOptions).logLevel.getD ""
          else cfg0.logLevel)
       ∧ ∀ pe s, ∃ r, setup pe ({ env := some "", stage := some "x" } : ConfigOptions) s = .ok r) :=
  ⟨by decide,
   configure_falsy_env_silently_ignored cfg0 { env := some "", stage := some "x" } (by decide)⟩

theorem string_append_ne (p t x : String)
    (h : t.data.take p.data.length ≠ p.data) : p ++ x ≠ t := by
  intro he
  apply h
  have hd : p.data ++ x.data = t.data := by
    have hc := congrArg String.data he
    simpa [String.data_append] using hc
  rw [← hd, List.take_left]

theorem cproto_ne_nr (x : String) :
    (("current_protocol_" ++ x : String) == "current_script_not_recognized") = false := by
  rw [beq_eq_false_iff_ne]
  exact string_append_ne _ _ _ (by decide)

theorem ncsv_ne_nr (x : String) :
    (("no_current_script_version_" ++ x : String) == "current_script_not_recognized") = false := by
  rw [beq_eq_false_iff_ne]
  exact string_append_ne _ _ _ (by decide)

theorem countP_nr_initBody (pe : PageEnv) (s : SdkState) :
    (initBody pe s).2.countP isNotRecognizedEff = 0 := by
  unfold initBody
  cases pe.eligible <;> cases hp : pe.isPayPalDomain <;>
    cases pe.forceBridge <;> cases pe.bridgeAvailable <;>
      simp [hp, List.countP_append, List.countP_cons, isNotRecognizedEff, cproto_ne_nr]

theorem countP_nr_init (pe : PageEnv) (s : SdkState) :
    (init pe s).2.countP isNotRecognizedEff = 0 := by
  unfold init once
  by_cases h : s.hasRun <;> simp [h, countP_nr_initBody]

theorem configure_empty (c : Config) : configure c {} = .ok (c, c.logLevel) := rfl

theorem setup_empty (pe : PageEnv) (s : SdkState) :
    setup pe {} s = .ok ((init pe s).1, Eff.setLogLevelEff s.config.logLevel :: (init pe s).2) := by
  simp [setup, configure_empty]

/-- C5 amended: when no script element matches any heuristic, the load-time
sequence (locator plus the fallback `else` branch) emits the
`current_script_not_recognized` diagnostic exactly twice when the document
tracks a currently-executing script — once inside the locator and once in the
fallback branch — and zero times when it does not; never exactly once. -/
theorem loadTime_not_recognized_twice_or_never (pe : PageEnv) (doc : Document)
    (s : SdkState) (h : scanScripts s.config doc.scripts = none) :
    notRecognizedCount (loadTimeRun pe doc s)
      = (if doc.currentScript.isSome then 2 else 0) := by
  have hg : getCurrentScript s.config doc
      = (none,
         if doc.currentScript.isSome then [Eff.debug "current_script_not_recognized"]
         else []) := by
    unfold getCurrentScript
    rw [h]
  simp only [loadTimeRun, hg, setup_empty]
  cases hcs : doc.currentScript.isSome <;>
    simp [hcs, notRecognizedCount, List.countP_append, List.countP_cons,
          isNotRecognizedEff, ncsv_ne_nr, countP_nr_init]

/-- C5 counterexample: in a document whose only script matches no heuristic
while `document.currentScript` is present, the load-time sequence emits the
not-recognized diagnostic twice, not exactly once as claimed. -/
theorem loadTime_not_recognized_not_once :
    scanScripts state0.config docNoMatch.scripts = none
    ∧ notRecognizedCount (loadTimeRun pe0 docNoMatch state0) = 2
    ∧ notRecognizedCount (loadTimeRun pe0 docNoMatch state0) ≠ 1 := by
  decide

/-- Witness for the amended C5 at the no-match fixture. -/
theorem loadTime_not_recognized_twice_or_never_witness :
    scanScripts state0.config docNoMatch.scripts = none
    ∧ notRecognizedCount (loadTimeRun pe0 docNoMatch state0)
        = (if docNoMatch.currentScript.isSome then 2 else 0) :=
  ⟨by decide, loadTime_not_recognized_twice_or_never pe0 docNoMatch state0 (by decide)⟩
